import Mathlib

set_option linter.unusedVariables false

/-!
Shallow embedding of the i8080 emulator core (src/memory.rs, src/registers.rs,
src/cpu.rs) in Lean 4, together with theorems settling the frozen claims about
its specification.

Modelling conventions:
* `u8` / `u16` values are `Nat`s; wrapping arithmetic is explicit `% 256` /
  `% 65536`; Rust casts (`as u8`) are `% 256`.
* Rust array indexing (which panics out of range) and Rust non-wrapping
  `+` / `-` on `u16` (which panic on overflow in debug builds) are modelled
  with `Option`: `none` is the panic.
* The `Disassembler` field of the Rust `CPU` struct is omitted: it is never
  consulted by `fetch`/`exec` (the tracing code is commented out in the
  source), so it has no semantic effect.
-/

namespace I8080

/-- Fuel-driven popcount helper; the fuel makes it structurally recursive so
concrete instances reduce inside `decide` proofs. -/
def countOnesAux : Nat → Nat → Nat
  | 0, _ => 0
  | fuel + 1, n => if n = 0 then 0 else n % 2 + countOnesAux fuel (n / 2)

/-- Population count of a natural number, modelling Rust `u8::count_ones`
(`n` itself is always enough fuel since `n < 2 ^ n`). -/
def countOnes (n : Nat) : Nat := countOnesAux n n

/-- 16-bit wrapping addition: Rust `u16::wrapping_add`. -/
def wadd16 (a b : Nat) : Nat := (a + b) % 65536

/-- 16-bit wrapping subtraction: Rust `u16::wrapping_sub`. -/
def wsub16 (a b : Nat) : Nat := (a + (65536 - b % 65536)) % 65536

/-- 8-bit wrapping addition: Rust `u8::wrapping_add`. -/
def wadd8 (a b : Nat) : Nat := (a + b) % 256

/-- 8-bit wrapping subtraction: Rust `u8::wrapping_sub`. -/
def wsub8 (a b : Nat) : Nat := (a + (256 - b % 256)) % 256

/-- Rust non-wrapping `u16` addition (`a + b`): panics (here: `none`) when the
sum does not fit in 16 bits. -/
def add16chk (a b : Nat) : Option Nat :=
  if a + b < 65536 then some (a + b) else none

/-- Rust non-wrapping `u16` subtraction (`a - b`): panics (here: `none`) on
underflow. -/
def sub16chk (a b : Nat) : Option Nat :=
  if b ≤ a then some (a - b) else none

/-- src/registers.rs: `enum Flag` with its bit positions. -/
inductive Flag where
  | S
  | Z
  | A
  | P
  | C
deriving DecidableEq

/-- The discriminant values of `Flag` (S = 7, Z = 6, A = 4, P = 2, C = 0). -/
def Flag.bit : Flag → Nat
  | .S => 7
  | .Z => 6
  | .A => 4
  | .P => 2
  | .C => 0

/-- src/registers.rs: `struct Registers`. -/
structure Registers where
  b : Nat
  c : Nat
  d : Nat
  e : Nat
  h : Nat
  l : Nat
  f : Nat
  a : Nat

/-- `Registers::new`: all zero except `f = 0x02`. -/
def Registers.new : Registers :=
  { b := 0, c := 0, d := 0, e := 0, h := 0, l := 0, f := 0x02, a := 0 }

/-- `Registers::get_af`. -/
def Registers.get_af (r : Registers) : Nat := (r.a <<< 8) ||| r.f

/-- `Registers::get_bc`. -/
def Registers.get_bc (r : Registers) : Nat := (r.b <<< 8) ||| r.c

/-- `Registers::get_de`. -/
def Registers.get_de (r : Registers) : Nat := (r.d <<< 8) ||| r.e

/-- `Registers::get_hl`. -/
def Registers.get_hl (r : Registers) : Nat := (r.h <<< 8) ||| r.l

/-- `Registers::set_af`: `a = (data >> 8) as u8; f = (data & 0x00ff) as u8`. -/
def Registers.set_af (r : Registers) (data : Nat) : Registers :=
  { r with a := (data >>> 8) % 256, f := (data &&& 0x00ff) % 256 }

/-- `Registers::set_bc`. -/
def Registers.set_bc (r : Registers) (data : Nat) : Registers :=
  { r with b := (data >>> 8) % 256, c := (data &&& 0x00ff) % 256 }

/-- `Registers::set_de`. -/
def Registers.set_de (r : Registers) (data : Nat) : Registers :=
  { r with d := (data >>> 8) % 256, e := (data &&& 0x00ff) % 256 }

/-- `Registers::set_hl`. -/
def Registers.set_hl (r : Registers) (data : Nat) : Registers :=
  { r with h := (data >>> 8) % 256, l := (data &&& 0x00ff) % 256 }

/-- `Registers::get_flag`: `(self.f >> (f as u8)) & 1 == 1`. -/
def Registers.get_flag (r : Registers) (fl : Flag) : Bool :=
  (r.f >>> fl.bit) &&& 1 == 1

/-- `Registers::set_flag`: set or clear one bit of `f`. -/
def Registers.set_flag (r : Registers) (fl : Flag) (c : Bool) : Registers :=
  if c then { r with f := r.f ||| (1 <<< fl.bit) }
  else { r with f := r.f &&& ((1 <<< fl.bit) ^^^ 0xff) }

/-- src/memory.rs: `struct Memory8080` — a 65536-byte array, modelled as a
function out of `Nat` (indices ≥ 65536 are never readable or writable). -/
structure Memory8080 where
  memory : Nat → Nat

/-- `Memory8080::new_empty`. -/
def Memory8080.new_empty : Memory8080 := ⟨fun _ => 0⟩

/-- `Memory for Memory8080`, `read`: `self.memory[i]`; indexing past the end
of the 65536-entry array panics (`none`). -/
def Memory8080.read (m : Memory8080) (i : Nat) : Option Nat :=
  if i < 65536 then some (m.memory i) else none

/-- `write`: `self.memory[i] = data`; panics (`none`) out of range. -/
def Memory8080.write (m : Memory8080) (i : Nat) (data : Nat) : Option Memory8080 :=
  if i < 65536 then some ⟨fun j => if j = i then data else m.memory j⟩ else none

/-- `read16`: `hi = read(i + 1); lo = read(i); (hi << 8) | lo`.  Note `i + 1`
is NOT reduced modulo 65536 in the source. -/
def Memory8080.read16 (m : Memory8080) (i : Nat) : Option Nat := do
  let hi ← m.read (i + 1)
  let lo ← m.read i
  some ((hi <<< 8) ||| lo)

/-- `write16`: high byte at `i + 1`, low byte at `i` (again no wrap of
`i + 1`). -/
def Memory8080.write16 (m : Memory8080) (i : Nat) (data : Nat) : Option Memory8080 := do
  let hi := (data &&& 0xff00) >>> 8
  let lo := data &&& 0xff
  let m1 ← m.write (i + 1) hi
  m1.write i lo

/-- src/cpu.rs: `enum Event`. -/
inductive Event where
  | Output (port : Nat) (value : Nat) (cycles : Nat)
  | Halt (cycles : Nat)
  | Normal (cycles : Nat)
deriving DecidableEq

/-- src/cpu.rs: `struct CPU` (the semantically inert `disassembler` field is
omitted). -/
structure CPU where
  regs : Registers
  memory : Memory8080
  pc : Nat
  sp : Nat
  inter : Bool

/-- `CPU::new_empty`: zeroed registers/memory, `pc = 0`, `sp = 0x0000`,
interrupts disabled. -/
def CPU.new_empty : CPU :=
  { regs := Registers.new, memory := Memory8080.new_empty, pc := 0, sp := 0,
    inter := false }

/-- `CPU::get_m`: the byte at address HL. -/
def CPU.get_m (cpu : CPU) : Option Nat := cpu.memory.read cpu.regs.get_hl

/-- `CPU::set_m`: write a byte at address HL. -/
def CPU.set_m (cpu : CPU) (data : Nat) : Option CPU := do
  let m ← cpu.memory.write cpu.regs.get_hl data
  some { cpu with memory := m }

/-- `CPU::stax`: store A at `addr`. -/
def CPU.stax (cpu : CPU) (addr : Nat) : Option CPU := do
  let m ← cpu.memory.write addr cpu.regs.a
  some { cpu with memory := m }

/-- `CPU::inr`: increment helper; returns the mutated CPU and the result. -/
def CPU.inr (cpu : CPU) (n : Nat) : CPU × Nat :=
  let r := wadd8 n 1
  let rg := cpu.regs.set_flag .S ((r &&& 0x80) == 0x80)
  let rg := rg.set_flag .Z (r == 0x00)
  let rg := rg.set_flag .A (decide ((n &&& 0x0f) + 1 > 0x0f))
  let rg := rg.set_flag .P (countOnes r &&& 0x01 == 0x00)
  ({ cpu with regs := rg }, r)

/-- `CPU::dcr`: decrement helper. -/
def CPU.dcr (cpu : CPU) (n : Nat) : CPU × Nat :=
  let r := wsub8 n 1
  let rg := cpu.regs.set_flag .S ((r &&& 0x80) == 0x80)
  let rg := rg.set_flag .Z (r == 0x00)
  let rg := rg.set_flag .A ((r &&& 0x0f) != 0x0f)
  let rg := rg.set_flag .P (countOnes r &&& 0x01 == 0x00)
  ({ cpu with regs := rg }, r)

/-- `CPU::add`. -/
def CPU.add (cpu : CPU) (regm1 regm2 : Nat) : CPU × Nat :=
  let n := wadd8 regm1 regm2
  let rg := cpu.regs.set_flag .S ((n &&& 0x80) == 0x80)
  let rg := rg.set_flag .Z (n == 0x00)
  let rg := rg.set_flag .A (decide ((regm1 &&& 0x0f) + (regm2 &&& 0x0f) > 0x0f))
  let rg := rg.set_flag .P (countOnes n &&& 0x01 == 0x00)
  let rg := rg.set_flag .C (decide (regm1 + regm2 > 0xff))
  ({ cpu with regs := rg }, n)

/-- `CPU::adc`. -/
def CPU.adc (cpu : CPU) (regm1 regm2 : Nat) : CPU × Nat :=
  let carry := if cpu.regs.get_flag .C then 1 else 0
  let n := wadd8 (wadd8 regm1 regm2) carry
  let rg := cpu.regs.set_flag .S ((n &&& 0x80) == 0x80)
  let rg := rg.set_flag .Z (n == 0x00)
  let rg := rg.set_flag .A (decide ((regm1 &&& 0x0f) + (regm2 &&& 0x0f) + carry > 0x0f))
  let rg := rg.set_flag .P (countOnes n &&& 0x01 == 0x00)
  let rg := rg.set_flag .C (decide (regm1 + regm2 + carry > 0xff))
  ({ cpu with regs := rg }, n)

/-- `CPU::sub`.  The auxiliary-carry line mirrors the source:
`(regm1 as i8 & 0x0f) - (regm2 as i8 & 0x0f) >= 0x00` — the flag is set when
there is NO low-nibble borrow. -/
def CPU.sub (cpu : CPU) (regm1 regm2 : Nat) : CPU × Nat :=
  let n := wsub8 regm1 regm2
  let rg := cpu.regs.set_flag .S ((n &&& 0x80) == 0x80)
  let rg := rg.set_flag .Z (n == 0x00)
  let rg := rg.set_flag .A
    (decide (((regm1 &&& 0x0f : Nat) : Int) - ((regm2 &&& 0x0f : Nat) : Int) ≥ 0))
  let rg := rg.set_flag .P (countOnes n &&& 0x01 == 0x00)
  let rg := rg.set_flag .C (decide (regm1 < regm2))
  ({ cpu with regs := rg }, n)

/-- `CPU::sbb` (same no-borrow auxiliary-carry convention as `sub`). -/
def CPU.sbb (cpu : CPU) (regm1 regm2 : Nat) : CPU × Nat :=
  let carry := if cpu.regs.get_flag .C then 1 else 0
  let n := wsub8 (wsub8 regm1 regm2) carry
  let rg := cpu.regs.set_flag .S ((n &&& 0x80) == 0x80)
  let rg := rg.set_flag .Z (n == 0x00)
  let rg := rg.set_flag .A
    (decide (((regm1 &&& 0x0f : Nat) : Int) - ((regm2 &&& 0x0f : Nat) : Int)
      - ((carry &&& 0x0f : Nat) : Int) ≥ 0))
  let rg := rg.set_flag .P (countOnes n &&& 0x01 == 0x00)
  let rg := rg.set_flag .C (decide (regm1 < regm2 + carry))
  ({ cpu with regs := rg }, n)

/-- `CPU::ana`. -/
def CPU.ana (cpu : CPU) (regm1 regm2 : Nat) : CPU × Nat :=
  let n := regm1 &&& regm2
  let rg := cpu.regs.set_flag .S ((n &&& 0x80) == 0x80)
  let rg := rg.set_flag .Z (n == 0x00)
  let rg := rg.set_flag .A (((regm1 ||| regm2) &&& 0x08) != 0)
  let rg := rg.set_flag .P (countOnes n &&& 0x01 == 0x00)
  let rg := rg.set_flag .C false
  ({ cpu with regs := rg }, n)

/-- `CPU::xra`. -/
def CPU.xra (cpu : CPU) (regm1 regm2 : Nat) : CPU × Nat :=
  let n := regm1 ^^^ regm2
  let rg := cpu.regs.set_flag .S ((n &&& 0x80) == 0x80)
  let rg := rg.set_flag .Z (n == 0x00)
  let rg := rg.set_flag .A false
  let rg := rg.set_flag .P (countOnes n &&& 0x01 == 0x00)
  let rg := rg.set_flag .C false
  ({ cpu with regs := rg }, n)

/-- `CPU::ora`. -/
def CPU.ora (cpu : CPU) (regm1 regm2 : Nat) : CPU × Nat :=
  let n := regm1 ||| regm2
  let rg := cpu.regs.set_flag .S ((n &&& 0x80) == 0x80)
  let rg := rg.set_flag .Z (n == 0x00)
  let rg := rg.set_flag .A false
  let rg := rg.set_flag .P (countOnes n &&& 0x01 == 0x00)
  let rg := rg.set_flag .C false
  ({ cpu with regs := rg }, n)

/-- `CPU::cmp`: `sub` for the flags only, result discarded. -/
def CPU.cmp (cpu : CPU) (regm1 regm2 : Nat) : CPU :=
  (cpu.sub regm1 regm2).1

/-- `CPU::jmp`. -/
def CPU.jmp (cpu : CPU) (cond : Bool) : Option CPU :=
  if cond then do
    let addr ← cpu.memory.read16 cpu.pc
    some { cpu with pc := addr }
  else some { cpu with pc := wadd16 cpu.pc 2 }

/-- `CPU::push`: `sp = sp.wrapping_sub(2); write16(sp, data)`. -/
def CPU.push (cpu : CPU) (data : Nat) : Option CPU := do
  let sp := wsub16 cpu.sp 2
  let m ← cpu.memory.write16 sp data
  some { cpu with sp := sp, memory := m }

/-- `CPU::pop`: `data = read16(sp); sp = sp.wrapping_add(2)`. -/
def CPU.pop (cpu : CPU) : Option (CPU × Nat) := do
  let data ← cpu.memory.read16 cpu.sp
  some ({ cpu with sp := wadd16 cpu.sp 2 }, data)

/-- `CPU::call`. -/
def CPU.call (cpu : CPU) (cond : Bool) : Option (CPU × Event) :=
  if cond then do
    let c1 ← cpu.push (wadd16 cpu.pc 2)
    let addr ← c1.memory.read16 c1.pc
    some ({ c1 with pc := addr }, .Normal 17)
  else some ({ cpu with pc := wadd16 cpu.pc 2 }, .Normal 11)

/-- `CPU::ret`. -/
def CPU.ret (cpu : CPU) (cond : Bool) : Option (CPU × Event) :=
  if cond then do
    let (c1, data) ← cpu.pop
    some ({ c1 with pc := data }, .Normal 11)
  else some (cpu, .Normal 5)

/-- `CPU::rst`: as written in the source — the current PC is stored at
`sp.wrapping_add(2)` (SP itself is NOT changed), then `pc = 0x0000 | addr`. -/
def CPU.rst (cpu : CPU) (addr : Nat) : Option CPU := do
  let m ← cpu.memory.write16 (wadd16 cpu.sp 2) cpu.pc
  some { cpu with memory := m, pc := 0x0000 ||| addr }

/-- `CPU::inter_handle` (the `try_interrupt` entry point): outer `none` is a
panic inside `push`; otherwise the pair of the new CPU and the Rust
`Option<Event>` result. -/
def CPU.inter_handle (cpu : CPU) (addr : Nat) : Option (CPU × Option Event) :=
  if cpu.inter then do
    let c1 ← CPU.push { cpu with inter := false } cpu.pc
    some ({ c1 with pc := addr }, some (.Normal 17))
  else some (cpu, none)

/-- `Device for CPU`, `fetch`: read the opcode at PC, advance PC by 1
(wrapping). -/
def CPU.fetch (cpu : CPU) : Option (CPU × Nat) := do
  let op ← cpu.memory.read cpu.pc
  some ({ cpu with pc := wadd16 cpu.pc 1 }, op)

set_option maxHeartbeats 4000000 in
/-- `Device for CPU`, `exec`: the 256-way opcode dispatch of src/cpu.rs.
Every byte value 0x00..0xff is matched explicitly below, exactly mirroring
the Rust `match`; the final wildcard is only reachable for non-byte naturals.
Rust panics (array indexing out of range, non-wrapping `u16` overflow) are
`none`. -/
def CPU.exec (cpu : CPU) (op : Nat) : Option (CPU × Event) :=
  match op with
  -- NOP (documented 0x00 plus the seven undocumented aliases)
  | 0x00 => some (cpu, .Normal 4)
  | 0x10 => some (cpu, .Normal 4)
  | 0x20 => some (cpu, .Normal 4)
  | 0x30 => some (cpu, .Normal 4)
  | 0x08 => some (cpu, .Normal 4)
  | 0x18 => some (cpu, .Normal 4)
  | 0x28 => some (cpu, .Normal 4)
  | 0x38 => some (cpu, .Normal 4)
  -- LXI (`self.pc += 2` is a non-wrapping u16 add in the source)
  | 0x01 => do
      let data ← cpu.memory.read16 cpu.pc
      let pc ← add16chk cpu.pc 2
      some ({ cpu with pc := pc, regs := cpu.regs.set_bc data }, .Normal 10)
  | 0x11 => do
      let data ← cpu.memory.read16 cpu.pc
      let pc ← add16chk cpu.pc 2
      some ({ cpu with pc := pc, regs := cpu.regs.set_de data }, .Normal 10)
  | 0x21 => do
      let data ← cpu.memory.read16 cpu.pc
      let pc ← add16chk cpu.pc 2
      some ({ cpu with pc := pc, regs := cpu.regs.set_hl data }, .Normal 10)
  | 0x31 => do
      let data ← cpu.memory.read16 cpu.pc
      let pc ← add16chk cpu.pc 2
      some ({ cpu with pc := pc, sp := data }, .Normal 10)
  -- STAX
  | 0x02 => do
      let c1 ← cpu.stax cpu.regs.get_bc
      some (c1, .Normal 7)
  | 0x12 => do
      let c1 ← cpu.stax cpu.regs.get_de
      some (c1, .Normal 7)
  -- INX (non-wrapping 16-bit `+ 1` in the source)
  | 0x03 => do
      let v ← add16chk cpu.regs.get_bc 1
      some ({ cpu with regs := cpu.regs.set_bc v }, .Normal 5)
  | 0x13 => do
      let v ← add16chk cpu.regs.get_de 1
      some ({ cpu with regs := cpu.regs.set_de v }, .Normal 5)
  | 0x23 => do
      let v ← add16chk cpu.regs.get_hl 1
      some ({ cpu with regs := cpu.regs.set_hl v }, .Normal 5)
  | 0x33 => do
      let v ← add16chk cpu.sp 1
      some ({ cpu with sp := v }, .Normal 5)
  -- INR
  | 0x04 =>
      let (c1, r) := cpu.inr cpu.regs.b
      some ({ c1 with regs := { c1.regs with b := r } }, .Normal 5)
  | 0x0c =>
      let (c1, r) := cpu.inr cpu.regs.c
      some ({ c1 with regs := { c1.regs with c := r } }, .Normal 5)
  | 0x14 =>
      let (c1, r) := cpu.inr cpu.regs.d
      some ({ c1 with regs := { c1.regs with d := r } }, .Normal 5)
  | 0x1c =>
      let (c1, r) := cpu.inr cpu.regs.e
      some ({ c1 with regs := { c1.regs with e := r } }, .Normal 5)
  | 0x24 =>
      let (c1, r) := cpu.inr cpu.regs.h
      some ({ c1 with regs := { c1.regs with h := r } }, .Normal 5)
  | 0x2c =>
      let (c1, r) := cpu.inr cpu.regs.l
      some ({ c1 with regs := { c1.regs with l := r } }, .Normal 5)
  | 0x34 => do
      let m ← cpu.get_m
      let (c1, n) := cpu.inr m
      let c2 ← c1.set_m n
      some (c2, .Normal 10)
  | 0x3c =>
      let (c1, r) := cpu.inr cpu.regs.a
      some ({ c1 with regs := { c1.regs with a := r } }, .Normal 5)
  -- DCR
  | 0x05 =>
      let (c1, r) := cpu.dcr cpu.regs.b
      some ({ c1 with regs := { c1.regs with b := r } }, .Normal 5)
  | 0x0d =>
      let (c1, r) := cpu.dcr cpu.regs.c
      some ({ c1 with regs := { c1.regs with c := r } }, .Normal 5)
  | 0x15 =>
      let (c1, r) := cpu.dcr cpu.regs.d
      some ({ c1 with regs := { c1.regs with d := r } }, .Normal 5)
  | 0x1d =>
      let (c1, r) := cpu.dcr cpu.regs.e
      some ({ c1 with regs := { c1.regs with e := r } }, .Normal 5)
  | 0x25 =>
      let (c1, r) := cpu.dcr cpu.regs.h
      some ({ c1 with regs := { c1.regs with h := r } }, .Normal 5)
  | 0x2d =>
      let (c1, r) := cpu.dcr cpu.regs.l
      some ({ c1 with regs := { c1.regs with l := r } }, .Normal 5)
  | 0x35 => do
      let m ← cpu.get_m
      let (c1, n) := cpu.dcr m
      let c2 ← c1.set_m n
      some (c2, .Normal 10)
  | 0x3d =>
      let (c1, r) := cpu.dcr cpu.regs.a
      some ({ c1 with regs := { c1.regs with a := r } }, .Normal 5)
  -- DCX (non-wrapping 16-bit `- 1` in the source)
  | 0x0b => do
      let v ← sub16chk cpu.regs.get_bc 1
      some ({ cpu with regs := cpu.regs.set_bc v }, .Normal 5)
  | 0x1b => do
      let v ← sub16chk cpu.regs.get_de 1
      some ({ cpu with regs := cpu.regs.set_de v }, .Normal 5)
  | 0x2b => do
      let v ← sub16chk cpu.regs.get_hl 1
      some ({ cpu with regs := cpu.regs.set_hl v }, .Normal 5)
  | 0x3b => do
      let v ← sub16chk cpu.sp 1
      some ({ cpu with sp := v }, .Normal 5)
  -- ADD
  | 0x80 =>
      let (c1, n) := cpu.add cpu.regs.a cpu.regs.b
      some ({ c1 with regs := { c1.regs with a := n } }, .Normal 4)
  | 0x81 =>
      let (c1, n) := cpu.add cpu.regs.a cpu.regs.c
      some ({ c1 with regs := { c1.regs with a := n } }, .Normal 4)
  | 0x82 =>
      let (c1, n) := cpu.add cpu.regs.a cpu.regs.d
      some ({ c1 with regs := { c1.regs with a := n } }, .Normal 4)
  | 0x83 =>
      let (c1, n) := cpu.add cpu.regs.a cpu.regs.e
      some ({ c1 with regs := { c1.regs with a := n } }, .Normal 4)
  | 0x84 =>
      let (c1, n) := cpu.add cpu.regs.a cpu.regs.h
      some ({ c1 with regs := { c1.regs with a := n } }, .Normal 4)
  | 0x85 =>
      let (c1, n) := cpu.add cpu.regs.a cpu.regs.l
      some ({ c1 with regs := { c1.regs with a := n } }, .Normal 4)
  | 0x86 => do
      let m ← cpu.get_m
      let (c1, n) := cpu.add cpu.regs.a m
      some ({ c1 with regs := { c1.regs with a := n } }, .Normal 7)
  | 0x87 =>
      let (c1, n) := cpu.add cpu.regs.a cpu.regs.a
      some ({ c1 with regs := { c1.regs with a := n } }, .Normal 4)
  -- SUB
  | 0x90 =>
      let (c1, n) := cpu.sub cpu.regs.a cpu.regs.b
      some ({ c1 with regs := { c1.regs with a := n } }, .Normal 4)
  | 0x91 =>
      let (c1, n) := cpu.sub cpu.regs.a cpu.regs.c
      some ({ c1 with regs := { c1.regs with a := n } }, .Normal 4)
  | 0x92 =>
      let (c1, n) := cpu.sub cpu.regs.a cpu.regs.d
      some ({ c1 with regs := { c1.regs with a := n } }, .Normal 4)
  | 0x93 =>
      let (c1, n) := cpu.sub cpu.regs.a cpu.regs.e
      some ({ c1 with regs := { c1.regs with a := n } }, .Normal 4)
  | 0x94 =>
      let (c1, n) := cpu.sub cpu.regs.a cpu.regs.h
      some ({ c1 with regs := { c1.regs with a := n } }, .Normal 4)
  | 0x95 =>
      let (c1, n) := cpu.sub cpu.regs.a cpu.regs.l
      some ({ c1 with regs := { c1.regs with a := n } }, .Normal 4)
  | 0x96 => do
      let m ← cpu.get_m
      let (c1, n) := cpu.sub cpu.regs.a m
      some ({ c1 with regs := { c1.regs with a := n } }, .Normal 7)
  | 0x97 =>
      let (c1, n) := cpu.sub cpu.regs.a cpu.regs.a
      some ({ c1 with regs := { c1.regs with a := n } }, .Normal 4)
  -- ADC
  | 0x88 =>
      let (c1, n) := cpu.adc cpu.regs.a cpu.regs.b
      some ({ c1 with regs := { c1.regs with a := n } }, .Normal 4)
  | 0x89 =>
      let (c1, n) := cpu.adc cpu.regs.a cpu.regs.c
      some ({ c1 with regs := { c1.regs with a := n } }, .Normal 4)
  | 0x8a =>
      let (c1, n) := cpu.adc cpu.regs.a cpu.regs.d
      some ({ c1 with regs := { c1.regs with a := n } }, .Normal 4)
  | 0x8b =>
      let (c1, n) := cpu.adc cpu.regs.a cpu.regs.e
      some ({ c1 with regs := { c1.regs with a := n } }, .Normal 4)
  | 0x8c =>
      let (c1, n) := cpu.adc cpu.regs.a cpu.regs.h
      some ({ c1 with regs := { c1.regs with a := n } }, .Normal 4)
  | 0x8d =>
      let (c1, n) := cpu.adc cpu.regs.a cpu.regs.l
      some ({ c1 with regs := { c1.regs with a := n } }, .Normal 4)
  | 0x8e => do
      let m ← cpu.get_m
      let (c1, n) := cpu.adc cpu.regs.a m
      some ({ c1 with regs := { c1.regs with a := n } }, .Normal 7)
  | 0x8f =>
      let (c1, n) := cpu.adc cpu.regs.a cpu.regs.a
      some ({ c1 with regs := { c1.regs with a := n } }, .Normal 4)
  -- SBB
  | 0x98 =>
      let (c1, n) := cpu.sbb cpu.regs.a cpu.regs.b
      some ({ c1 with regs := { c1.regs with a := n } }, .Normal 4)
  | 0x99 =>
      let (c1, n) := cpu.sbb cpu.regs.a cpu.regs.c
      some ({ c1 with regs := { c1.regs with a := n } }, .Normal 4)
  | 0x9a =>
      let (c1, n) := cpu.sbb cpu.regs.a cpu.regs.d
      some ({ c1 with regs := { c1.regs with a := n } }, .Normal 4)
  | 0x9b =>
      let (c1, n) := cpu.sbb cpu.regs.a cpu.regs.e
      some ({ c1 with regs := { c1.regs with a := n } }, .Normal 4)
  | 0x9c =>
      let (c1, n) := cpu.sbb cpu.regs.a cpu.regs.h
      some ({ c1 with regs := { c1.regs with a := n } }, .Normal 4)
  | 0x9d =>
      let (c1, n) := cpu.sbb cpu.regs.a cpu.regs.l
      some ({ c1 with regs := { c1.regs with a := n } }, .Normal 4)
  | 0x9e => do
      let m ← cpu.get_m
      let (c1, n) := cpu.sbb cpu.regs.a m
      some ({ c1 with regs := { c1.regs with a := n } }, .Normal 7)
  | 0x9f =>
      let (c1, n) := cpu.sbb cpu.regs.a cpu.regs.a
      some ({ c1 with regs := { c1.regs with a := n } }, .Normal 4)
  -- ANA
  | 0xa0 =>
      let (c1, n) := cpu.ana cpu.regs.a cpu.regs.b
      some ({ c1 with regs := { c1.regs with a := n } }, .Normal 4)
  | 0xa1 =>
      let (c1, n) := cpu.ana cpu.regs.a cpu.regs.c
      some ({ c1 with regs := { c1.regs with a := n } }, .Normal 4)
  | 0xa2 =>
      let (c1, n) := cpu.ana cpu.regs.a cpu.regs.d
      some ({ c1 with regs := { c1.regs with a := n } }, .Normal 4)
  | 0xa3 =>
      let (c1, n) := cpu.ana cpu.regs.a cpu.regs.e
      some ({ c1 with regs := { c1.regs with a := n } }, .Normal 4)
  | 0xa4 =>
      let (c1, n) := cpu.ana cpu.regs.a cpu.regs.h
      some ({ c1 with regs := { c1.regs with a := n } }, .Normal 4)
  | 0xa5 =>
      let (c1, n) := cpu.ana cpu.regs.a cpu.regs.l
      some ({ c1 with regs := { c1.regs with a := n } }, .Normal 4)
  | 0xa6 => do
      let m ← cpu.get_m
      let (c1, n) := cpu.ana cpu.regs.a m
      some ({ c1 with regs := { c1.regs with a := n } }, .Normal 7)
  | 0xa7 =>
      let (c1, n) := cpu.ana cpu.regs.a cpu.regs.a
      some ({ c1 with regs := { c1.regs with a := n } }, .Normal 4)
  -- XRA
  | 0xa8 =>
      let (c1, n) := cpu.xra cpu.regs.a cpu.regs.b
      some ({ c1 with regs := { c1.regs with a := n } }, .Normal 4)
  | 0xa9 =>
      let (c1, n) := cpu.xra cpu.regs.a cpu.regs.c
      some ({ c1 with regs := { c1.regs with a := n } }, .Normal 4)
  | 0xaa =>
      let (c1, n) := cpu.xra cpu.regs.a cpu.regs.d
      some ({ c1 with regs := { c1.regs with a := n } }, .Normal 4)
  | 0xab =>
      let (c1, n) := cpu.xra cpu.regs.a cpu.regs.e
      some ({ c1 with regs := { c1.regs with a := n } }, .Normal 4)
  | 0xac =>
      let (c1, n) := cpu.xra cpu.regs.a cpu.regs.h
      some ({ c1 with regs := { c1.regs with a := n } }, .Normal 4)
  | 0xad =>
      let (c1, n) := cpu.xra cpu.regs.a cpu.regs.l
      some ({ c1 with regs := { c1.regs with a := n } }, .Normal 4)
  | 0xae => do
      let m ← cpu.get_m
      let (c1, n) := cpu.xra cpu.regs.a m
      some ({ c1 with regs := { c1.regs with a := n } }, .Normal 7)
  | 0xaf =>
      let (c1, n) := cpu.xra cpu.regs.a cpu.regs.a
      some ({ c1 with regs := { c1.regs with a := n } }, .Normal 4)
  -- ORA
  | 0xb0 =>
      let (c1, n) := cpu.ora cpu.regs.a cpu.regs.b
      some ({ c1 with regs := { c1.regs with a := n } }, .Normal 4)
  | 0xb1 =>
      let (c1, n) := cpu.ora cpu.regs.a cpu.regs.c
      some ({ c1 with regs := { c1.regs with a := n } }, .Normal 4)
  | 0xb2 =>
      let (c1, n) := cpu.ora cpu.regs.a cpu.regs.d
      some ({ c1 with regs := { c1.regs with a := n } }, .Normal 4)
  | 0xb3 =>
      let (c1, n) := cpu.ora cpu.regs.a cpu.regs.e
      some ({ c1 with regs := { c1.regs with a := n } }, .Normal 4)
  | 0xb4 =>
      let (c1, n) := cpu.ora cpu.regs.a cpu.regs.h
      some ({ c1 with regs := { c1.regs with a := n } }, .Normal 4)
  | 0xb5 =>
      let (c1, n) := cpu.ora cpu.regs.a cpu.regs.l
      some ({ c1 with regs := { c1.regs with a := n } }, .Normal 4)
  | 0xb6 => do
      let m ← cpu.get_m
      let (c1, n) := cpu.ora cpu.regs.a m
      some ({ c1 with regs := { c1.regs with a := n } }, .Normal 7)
  | 0xb7 =>
      let (c1, n) := cpu.ora cpu.regs.a cpu.regs.a
      some ({ c1 with regs := { c1.regs with a := n } }, .Normal 4)
  -- CMP
  | 0xb8 => some (cpu.cmp cpu.regs.a cpu.regs.b, .Normal 4)
  | 0xb9 => some (cpu.cmp cpu.regs.a cpu.regs.c, .Normal 4)
  | 0xba => some (cpu.cmp cpu.regs.a cpu.regs.d, .Normal 4)
  | 0xbb => some (cpu.cmp cpu.regs.a cpu.regs.e, .Normal 4)
  | 0xbc => some (cpu.cmp cpu.regs.a cpu.regs.h, .Normal 4)
  | 0xbd => some (cpu.cmp cpu.regs.a cpu.regs.l, .Normal 4)
  | 0xbe => do
      let m ← cpu.get_m
      some (cpu.cmp cpu.regs.a m, .Normal 7)
  | 0xbf => some (cpu.cmp cpu.regs.a cpu.regs.a, .Normal 4)
  -- ADI
  | 0xc6 => do
      let data ← cpu.memory.read cpu.pc
      let cpu := { cpu with pc := wadd16 cpu.pc 1 }
      let (c1, n) := cpu.add cpu.regs.a data
      some ({ c1 with regs := { c1.regs with a := n } }, .Normal 7)
  -- ACI
  | 0xce => do
      let data ← cpu.memory.read cpu.pc
      let cpu := { cpu with pc := wadd16 cpu.pc 1 }
      let (c1, n) := cpu.adc cpu.regs.a data
      some ({ c1 with regs := { c1.regs with a := n } }, .Normal 7)
  -- SUI
  | 0xd6 => do
      let data ← cpu.memory.read cpu.pc
      let cpu := { cpu with pc := wadd16 cpu.pc 1 }
      let (c1, n) := cpu.sub cpu.regs.a data
      some ({ c1 with regs := { c1.regs with a := n } }, .Normal 7)
  -- SBI
  | 0xde => do
      let data ← cpu.memory.read cpu.pc
      let cpu := { cpu with pc := wadd16 cpu.pc 1 }
      let (c1, n) := cpu.sbb cpu.regs.a data
      some ({ c1 with regs := { c1.regs with a := n } }, .Normal 7)
  -- ANI
  | 0xe6 => do
      let data ← cpu.memory.read cpu.pc
      let cpu := { cpu with pc := wadd16 cpu.pc 1 }
      let (c1, n) := cpu.ana cpu.regs.a data
      some ({ c1 with regs := { c1.regs with a := n } }, .Normal 7)
  -- XRI
  | 0xee => do
      let data ← cpu.memory.read cpu.pc
      let cpu := { cpu with pc := wadd16 cpu.pc 1 }
      let (c1, n) := cpu.xra cpu.regs.a data
      some ({ c1 with regs := { c1.regs with a := n } }, .Normal 7)
  -- ORI
  | 0xf6 => do
      let data ← cpu.memory.read cpu.pc
      let cpu := { cpu with pc := wadd16 cpu.pc 1 }
      let (c1, n) := cpu.ora cpu.regs.a data
      some ({ c1 with regs := { c1.regs with a := n } }, .Normal 7)
  -- CPI
  | 0xfe => do
      let data ← cpu.memory.read cpu.pc
      let cpu := { cpu with pc := wadd16 cpu.pc 1 }
      some (cpu.cmp cpu.regs.a data, .Normal 7)
  -- RLC
  | 0x07 =>
      let carry := (cpu.regs.a &&& 0x80) >>> 7
      let n := ((cpu.regs.a <<< 1) % 256) ||| carry
      let rg := cpu.regs.set_flag .C (carry == 1)
      some ({ cpu with regs := { rg with a := n } }, .Normal 4)
  -- RRC
  | 0x0f =>
      let carry := cpu.regs.a &&& 0x01
      let n := if carry == 1 then 0x80 ||| (cpu.regs.a >>> 1) else cpu.regs.a >>> 1
      let rg := cpu.regs.set_flag .C (carry == 1)
      some ({ cpu with regs := { rg with a := n } }, .Normal 4)
  -- RAL
  | 0x17 =>
      let carry := (cpu.regs.a &&& 0x80) >>> 7
      let n := ((cpu.regs.a <<< 1) % 256) ||| (if cpu.regs.get_flag .C then 1 else 0)
      let rg := cpu.regs.set_flag .C (carry == 1)
      some ({ cpu with regs := { rg with a := n } }, .Normal 4)
  -- RAR
  | 0x1f =>
      let lo := cpu.regs.a &&& 1
      let carry := if cpu.regs.get_flag .C then 0x80 else 0
      let a1 := (cpu.regs.a >>> 1) ||| carry
      let rg := cpu.regs.set_flag .C (lo == 1)
      some ({ cpu with regs := { rg with a := a1 } }, .Normal 4)
  -- CMA (`!a` on u8 is bitwise complement)
  | 0x2f =>
      some ({ cpu with regs := { cpu.regs with a := cpu.regs.a ^^^ 0xff } }, .Normal 4)
  -- CMC
  | 0x3f =>
      let carry := cpu.regs.get_flag .C
      some ({ cpu with regs := cpu.regs.set_flag .C (!carry) }, .Normal 4)
  -- DAA
  | 0x27 =>
      let hi := cpu.regs.a >>> 4
      let lo := cpu.regs.a &&& 0x0f
      let carry0 := cpu.regs.get_flag .C
      let res0 := 0
      let res1 := if decide (lo > 9) || cpu.regs.get_flag .A then res0 + 0x06 else res0
      let cnd := decide (hi > 9) || carry0 || (decide (hi ≥ 9) && decide (lo > 9))
      let res2 := if cnd then res1 + 0x60 else res1
      let carry := if cnd then true else carry0
      let (c1, n) := cpu.add cpu.regs.a res2
      let rg := Registers.set_flag { c1.regs with a := n } .C carry
      some ({ c1 with regs := rg }, .Normal 4)
  -- STC
  | 0x37 => some ({ cpu with regs := cpu.regs.set_flag .C true }, .Normal 4)
  -- DAD
  | 0x09 =>
      let n := wadd16 cpu.regs.get_hl cpu.regs.get_bc
      let rg := cpu.regs.set_flag .C (decide (cpu.regs.get_hl > 0xffff - cpu.regs.get_bc))
      some ({ cpu with regs := rg.set_hl n }, .Normal 10)
  | 0x19 =>
      let n := wadd16 cpu.regs.get_hl cpu.regs.get_de
      let rg := cpu.regs.set_flag .C (decide (cpu.regs.get_hl > 0xffff - cpu.regs.get_de))
      some ({ cpu with regs := rg.set_hl n }, .Normal 10)
  | 0x29 =>
      let n := wadd16 cpu.regs.get_hl cpu.regs.get_hl
      let rg := cpu.regs.set_flag .C (decide (cpu.regs.get_hl > 0xffff - cpu.regs.get_hl))
      some ({ cpu with regs := rg.set_hl n }, .Normal 10)
  | 0x39 =>
      let n := wadd16 cpu.regs.get_hl cpu.sp
      let rg := cpu.regs.set_flag .C (decide (cpu.regs.get_hl > 0xffff - cpu.sp))
      some ({ cpu with regs := rg.set_hl n }, .Normal 10)
  -- MOV B, regm
  | 0x40 => some ({ cpu with regs := { cpu.regs with b := cpu.regs.b } }, .Normal 5)
  | 0x41 => some ({ cpu with regs := { cpu.regs with b := cpu.regs.c } }, .Normal 5)
  | 0x42 => some ({ cpu with regs := { cpu.regs with b := cpu.regs.d } }, .Normal 5)
  | 0x43 => some ({ cpu with regs := { cpu.regs with b := cpu.regs.e } }, .Normal 5)
  | 0x44 => some ({ cpu with regs := { cpu.regs with b := cpu.regs.h } }, .Normal 5)
  | 0x45 => some ({ cpu with regs := { cpu.regs with b := cpu.regs.l } }, .Normal 5)
  | 0x46 => do
      let m ← cpu.get_m
      some ({ cpu with regs := { cpu.regs with b := m } }, .Normal 7)
  | 0x47 => some ({ cpu with regs := { cpu.regs with b := cpu.regs.a } }, .Normal 5)
  -- MOV C, regm
  | 0x48 => some ({ cpu with regs := { cpu.regs with c := cpu.regs.b } }, .Normal 5)
  | 0x49 => some ({ cpu with regs := { cpu.regs with c := cpu.regs.c } }, .Normal 5)
  | 0x4a => some ({ cpu with regs := { cpu.regs with c := cpu.regs.d } }, .Normal 5)
  | 0x4b => some ({ cpu with regs := { cpu.regs with c := cpu.regs.e } }, .Normal 5)
  | 0x4c => some ({ cpu with regs := { cpu.regs with c := cpu.regs.h } }, .Normal 5)
  | 0x4d => some ({ cpu with regs := { cpu.regs with c := cpu.regs.l } }, .Normal 5)
  | 0x4e => do
      let m ← cpu.get_m
      some ({ cpu with regs := { cpu.regs with c := m } }, .Normal 7)
  | 0x4f => some ({ cpu with regs := { cpu.regs with c := cpu.regs.a } }, .Normal 5)
  -- MOV D, regm
  | 0x50 => some ({ cpu with regs := { cpu.regs with d := cpu.regs.b } }, .Normal 5)
  | 0x51 => some ({ cpu with regs := { cpu.regs with d := cpu.regs.c } }, .Normal 5)
  | 0x52 => some ({ cpu with regs := { cpu.regs with d := cpu.regs.d } }, .Normal 5)
  | 0x53 => some ({ cpu with regs := { cpu.regs with d := cpu.regs.e } }, .Normal 5)
  | 0x54 => some ({ cpu with regs := { cpu.regs with d := cpu.regs.h } }, .Normal 5)
  | 0x55 => some ({ cpu with regs := { cpu.regs with d := cpu.regs.l } }, .Normal 5)
  | 0x56 => do
      let m ← cpu.get_m
      some ({ cpu with regs := { cpu.regs with d := m } }, .Normal 7)
  | 0x57 => some ({ cpu with regs := { cpu.regs with d := cpu.regs.a } }, .Normal 5)
  -- MOV E, regm
  | 0x58 => some ({ cpu with regs := { cpu.regs with e := cpu.regs.b } }, .Normal 5)
  | 0x59 => some ({ cpu with regs := { cpu.regs with e := cpu.regs.c } }, .Normal 5)
  | 0x5a => some ({ cpu with regs := { cpu.regs with e := cpu.regs.d } }, .Normal 5)
  | 0x5b => some ({ cpu with regs := { cpu.regs with e := cpu.regs.e } }, .Normal 5)
  | 0x5c => some ({ cpu with regs := { cpu.regs with e := cpu.regs.h } }, .Normal 5)
  | 0x5d => some ({ cpu with regs := { cpu.regs with e := cpu.regs.l } }, .Normal 5)
  | 0x5e => do
      let m ← cpu.get_m
      some ({ cpu with regs := { cpu.regs with e := m } }, .Normal 7)
  | 0x5f => some ({ cpu with regs := { cpu.regs with e := cpu.regs.a } }, .Normal 5)
  -- MOV H, regm
  | 0x60 => some ({ cpu with regs := { cpu.regs with h := cpu.regs.b } }, .Normal 5)
  | 0x61 => some ({ cpu with regs := { cpu.regs with h := cpu.regs.c } }, .Normal 5)
  | 0x62 => some ({ cpu with regs := { cpu.regs with h := cpu.regs.d } }, .Normal 5)
  | 0x63 => some ({ cpu with regs := { cpu.regs with h := cpu.regs.e } }, .Normal 5)
  | 0x64 => some ({ cpu with regs := { cpu.regs with h := cpu.regs.h } }, .Normal 5)
  | 0x65 => some ({ cpu with regs := { cpu.regs with h := cpu.regs.l } }, .Normal 5)
  | 0x66 => do
      let m ← cpu.get_m
      some ({ cpu with regs := { cpu.regs with h := m } }, .Normal 7)
  | 0x67 => some ({ cpu with regs := { cpu.regs with h := cpu.regs.a } }, .Normal 5)
  -- MOV L, regm
  | 0x68 => some ({ cpu with regs := { cpu.regs with l := cpu.regs.b } }, .Normal 5)
  | 0x69 => some ({ cpu with regs := { cpu.regs with l := cpu.regs.c } }, .Normal 5)
  | 0x6a => some ({ cpu with regs := { cpu.regs with l := cpu.regs.d } }, .Normal 5)
  | 0x6b => some ({ cpu with regs := { cpu.regs with l := cpu.regs.e } }, .Normal 5)
  | 0x6c => some ({ cpu with regs := { cpu.regs with l := cpu.regs.h } }, .Normal 5)
  | 0x6d => some ({ cpu with regs := { cpu.regs with l := cpu.regs.l } }, .Normal 5)
  | 0x6e => do
      let m ← cpu.get_m
      some ({ cpu with regs := { cpu.regs with l := m } }, .Normal 7)
  | 0x6f => some ({ cpu with regs := { cpu.regs with l := cpu.regs.a } }, .Normal 5)
  -- MOV M, regs
  | 0x70 => do
      let c1 ← cpu.set_m cpu.regs.b
      some (c1, .Normal 7)
  | 0x71 => do
      let c1 ← cpu.set_m cpu.regs.c
      some (c1, .Normal 7)
  | 0x72 => do
      let c1 ← cpu.set_m cpu.regs.d
      some (c1, .Normal 7)
  | 0x73 => do
      let c1 ← cpu.set_m cpu.regs.e
      some (c1, .Normal 7)
  | 0x74 => do
      let c1 ← cpu.set_m cpu.regs.h
      some (c1, .Normal 7)
  | 0x75 => do
      let c1 ← cpu.set_m cpu.regs.l
      some (c1, .Normal 7)
  | 0x77 => do
      let c1 ← cpu.set_m cpu.regs.a
      some (c1, .Normal 7)
  -- MOV A, regm
  | 0x78 => some ({ cpu with regs := { cpu.regs with a := cpu.regs.b } }, .Normal 5)
  | 0x79 => some ({ cpu with regs := { cpu.regs with a := cpu.regs.c } }, .Normal 5)
  | 0x7a => some ({ cpu with regs := { cpu.regs with a := cpu.regs.d } }, .Normal 5)
  | 0x7b => some ({ cpu with regs := { cpu.regs with a := cpu.regs.e } }, .Normal 5)
  | 0x7c => some ({ cpu with regs := { cpu.regs with a := cpu.regs.h } }, .Normal 5)
  | 0x7d => some ({ cpu with regs := { cpu.regs with a := cpu.regs.l } }, .Normal 5)
  | 0x7e => do
      let m ← cpu.get_m
      some ({ cpu with regs := { cpu.regs with a := m } }, .Normal 7)
  | 0x7f => some ({ cpu with regs := { cpu.regs with a := cpu.regs.a } }, .Normal 5)
  -- MVI
  | 0x06 => do
      let data ← cpu.memory.read cpu.pc
      some ({ cpu with pc := wadd16 cpu.pc 1,
                       regs := { cpu.regs with b := data } }, .Normal 7)
  | 0x0e => do
      let data ← cpu.memory.read cpu.pc
      some ({ cpu with pc := wadd16 cpu.pc 1,
                       regs := { cpu.regs with c := data } }, .Normal 7)
  | 0x16 => do
      let data ← cpu.memory.read cpu.pc
      some ({ cpu with pc := wadd16 cpu.pc 1,
                       regs := { cpu.regs with d := data } }, .Normal 7)
  | 0x1e => do
      let data ← cpu.memory.read cpu.pc
      some ({ cpu with pc := wadd16 cpu.pc 1,
                       regs := { cpu.regs with e := data } }, .Normal 7)
  | 0x26 => do
      let data ← cpu.memory.read cpu.pc
      some ({ cpu with pc := wadd16 cpu.pc 1,
                       regs := { cpu.regs with h := data } }, .Normal 7)
  | 0x2e => do
      let data ← cpu.memory.read cpu.pc
      some ({ cpu with pc := wadd16 cpu.pc 1,
                       regs := { cpu.regs with l := data } }, .Normal 7)
  | 0x36 => do
      let data ← cpu.memory.read cpu.pc
      let cpu := { cpu with pc := wadd16 cpu.pc 1 }
      let c1 ← cpu.set_m data
      some (c1, .Normal 10)
  | 0x3e => do
      let data ← cpu.memory.read cpu.pc
      some ({ cpu with pc := wadd16 cpu.pc 1,
                       regs := { cpu.regs with a := data } }, .Normal 7)
  -- SHLD (`addr + 1` is a non-wrapping u16 add in the source)
  | 0x22 => do
      let addr ← cpu.memory.read16 cpu.pc
      let cpu := { cpu with pc := wadd16 cpu.pc 2 }
      let m1 ← cpu.memory.write addr cpu.regs.l
      let addr1 ← add16chk addr 1
      let m2 ← m1.write addr1 cpu.regs.h
      some ({ cpu with memory := m2 }, .Normal 16)
  -- STA
  | 0x32 => do
      let addr ← cpu.memory.read16 cpu.pc
      let cpu := { cpu with pc := wadd16 cpu.pc 2 }
      let m1 ← cpu.memory.write addr cpu.regs.a
      some ({ cpu with memory := m1 }, .Normal 13)
  -- LDAX
  | 0x0a => do
      let data ← cpu.memory.read cpu.regs.get_bc
      some ({ cpu with regs := { cpu.regs with a := data } }, .Normal 7)
  | 0x1a => do
      let data ← cpu.memory.read cpu.regs.get_de
      some ({ cpu with regs := { cpu.regs with a := data } }, .Normal 7)
  -- LHLD
  | 0x2a => do
      let addr ← cpu.memory.read16 cpu.pc
      let data ← cpu.memory.read16 addr
      some ({ cpu with pc := wadd16 cpu.pc 2,
                       regs := cpu.regs.set_hl data }, .Normal 16)
  -- LDA
  | 0x3a => do
      let addr ← cpu.memory.read16 cpu.pc
      let cpu := { cpu with pc := wadd16 cpu.pc 2 }
      let data ← cpu.memory.read addr
      some ({ cpu with regs := { cpu.regs with a := data } }, .Normal 13)
  -- JMP (0xcb is the undocumented alias)
  | 0xc3 => do
      let c1 ← cpu.jmp true
      some (c1, .Normal 13)
  | 0xcb => do
      let c1 ← cpu.jmp true
      some (c1, .Normal 13)
  -- JC
  | 0xda => do
      let c1 ← cpu.jmp (cpu.regs.get_flag .C)
      some (c1, .Normal 13)
  -- JNC
  | 0xd2 => do
      let c1 ← cpu.jmp (!cpu.regs.get_flag .C)
      some (c1, .Normal 13)
  -- JZ
  | 0xca => do
      let c1 ← cpu.jmp (cpu.regs.get_flag .Z)
      some (c1, .Normal 13)
  -- JNZ
  | 0xc2 => do
      let c1 ← cpu.jmp (!cpu.regs.get_flag .Z)
      some (c1, .Normal 13)
  -- JP
  | 0xf2 => do
      let c1 ← cpu.jmp (!cpu.regs.get_flag .S)
      some (c1, .Normal 13)
  -- JM
  | 0xfa => do
      let c1 ← cpu.jmp (cpu.regs.get_flag .S)
      some (c1, .Normal 13)
  -- JPE
  | 0xea => do
      let c1 ← cpu.jmp (cpu.regs.get_flag .P)
      some (c1, .Normal 13)
  -- JPO
  | 0xe2 => do
      let c1 ← cpu.jmp (!cpu.regs.get_flag .P)
      some (c1, .Normal 13)
  -- PCHL
  | 0xe9 => some ({ cpu with pc := cpu.regs.get_hl }, .Normal 5)
  -- SPHL
  | 0xf9 => some ({ cpu with sp := cpu.regs.get_hl }, .Normal 5)
  -- XTHL
  | 0xe3 => do
      let data ← cpu.memory.read16 cpu.sp
      let m ← cpu.memory.write16 cpu.sp cpu.regs.get_hl
      some ({ cpu with memory := m, regs := cpu.regs.set_hl data }, .Normal 18)
  -- XCHG
  | 0xeb =>
      let tmp := cpu.regs.get_hl
      let rg := cpu.regs.set_hl cpu.regs.get_de
      let rg := rg.set_de tmp
      some ({ cpu with regs := rg }, .Normal 5)
  -- CALL (0xdd/0xed/0xfd are undocumented aliases)
  | 0xcd => cpu.call true
  | 0xdd => cpu.call true
  | 0xed => cpu.call true
  | 0xfd => cpu.call true
  -- CC
  | 0xdc => cpu.call (cpu.regs.get_flag .C)
  -- CNC
  | 0xd4 => cpu.call (!cpu.regs.get_flag .C)
  -- CZ
  | 0xcc => cpu.call (cpu.regs.get_flag .Z)
  -- CNZ
  | 0xc4 => cpu.call (!cpu.regs.get_flag .Z)
  -- CP
  | 0xf4 => cpu.call (!cpu.regs.get_flag .S)
  -- CM
  | 0xfc => cpu.call (cpu.regs.get_flag .S)
  -- CPE
  | 0xec => cpu.call (cpu.regs.get_flag .P)
  -- CPO
  | 0xe4 => cpu.call (!cpu.regs.get_flag .P)
  -- RET (0xd9 is the undocumented alias)
  | 0xc9 => cpu.ret true
  | 0xd9 => cpu.ret true
  -- RC
  | 0xd8 => cpu.ret (cpu.regs.get_flag .C)
  -- RNC
  | 0xd0 => cpu.ret (!cpu.regs.get_flag .C)
  -- RZ
  | 0xc8 => cpu.ret (cpu.regs.get_flag .Z)
  -- RNZ
  | 0xc0 => cpu.ret (!cpu.regs.get_flag .Z)
  -- RM
  | 0xf8 => cpu.ret (cpu.regs.get_flag .S)
  -- RP
  | 0xf0 => cpu.ret (!cpu.regs.get_flag .S)
  -- RPE
  | 0xe8 => cpu.ret (cpu.regs.get_flag .P)
  -- RPO
  | 0xe0 => cpu.ret (!cpu.regs.get_flag .P)
  -- PUSH
  | 0xc5 => do
      let c1 ← cpu.push cpu.regs.get_bc
      some (c1, .Normal 11)
  | 0xd5 => do
      let c1 ← cpu.push cpu.regs.get_de
      some (c1, .Normal 11)
  | 0xe5 => do
      let c1 ← cpu.push cpu.regs.get_hl
      some (c1, .Normal 11)
  | 0xf5 => do
      let c1 ← cpu.push cpu.regs.get_af
      some (c1, .Normal 11)
  -- POP
  | 0xc1 => do
      let (c1, data) ← cpu.pop
      some ({ c1 with regs := c1.regs.set_bc data }, .Normal 10)
  | 0xd1 => do
      let (c1, data) ← cpu.pop
      some ({ c1 with regs := c1.regs.set_de data }, .Normal 10)
  | 0xe1 => do
      let (c1, data) ← cpu.pop
      some ({ c1 with regs := c1.regs.set_hl data }, .Normal 10)
  | 0xf1 => do
      let (c1, data) ← cpu.pop
      some ({ c1 with regs := c1.regs.set_af data }, .Normal 10)
  -- EI
  | 0xfb => some ({ cpu with inter := true }, .Normal 4)
  -- DI
  | 0xf3 => some ({ cpu with inter := false }, .Normal 4)
  -- IN: the operand byte is read and discarded; A is NOT written.
  | 0xdb => do
      let _data ← cpu.memory.read cpu.pc
      some ({ cpu with pc := wadd16 cpu.pc 1 }, .Normal 10)
  -- OUT
  | 0xd3 => do
      let port ← cpu.memory.read cpu.pc
      some ({ cpu with pc := wadd16 cpu.pc 1 }, .Output port cpu.regs.a 10)
  -- HLT
  | 0x76 => some (cpu, .Halt 7)
  -- RST
  | 0xc7 => do
      let c1 ← cpu.rst 0x0000
      some (c1, .Normal 11)
  | 0xcf => do
      let c1 ← cpu.rst 0x0008
      some (c1, .Normal 11)
  | 0xd7 => do
      let c1 ← cpu.rst 0x0010
      some (c1, .Normal 11)
  | 0xdf => do
      let c1 ← cpu.rst 0x0018
      some (c1, .Normal 11)
  | 0xe7 => do
      let c1 ← cpu.rst 0x0020
      some (c1, .Normal 11)
  | 0xef => do
      let c1 ← cpu.rst 0x0028
      some (c1, .Normal 11)
  | 0xf7 => do
      let c1 ← cpu.rst 0x0030
      some (c1, .Normal 11)
  | 0xff => do
      let c1 ← cpu.rst 0x0038
      some (c1, .Normal 11)
  -- unreachable for byte opcodes: every value 0x00..0xff is matched above
  | _ => none

/-! Concrete machine states used by the claim theorems. -/

/-- State for exercising RST: PC and SP at recognisable values, zero memory. -/
def rstState : CPU :=
  { regs := Registers.new, memory := Memory8080.new_empty, pc := 0x1234,
    sp := 0x2000, inter := false }

/-- Memory image of the repository's own `test_cpi`: `CPI 0x02` at address 0. -/
def cpiMemory : Memory8080 :=
  ⟨fun i => if i = 0 then 0xfe else if i = 1 then 0x02 else 0⟩

/-- The `test_cpi` machine: `A = 0x01`, fresh flags, `CPI 0x02` in memory. -/
def cpiState : CPU :=
  { regs := { Registers.new with a := 0x01 }, memory := cpiMemory, pc := 0,
    sp := 0, inter := false }

/-- One fetch-then-exec step of `cpiState`. -/
def cpiRun : Option (CPU × Event) := do
  let (c1, op) ← cpiState.fetch
  c1.exec op

/-- An otherwise fresh CPU whose carry flag is set (for the SBB borrow-in
case). -/
def carrySetState : CPU :=
  { CPU.new_empty with regs := { Registers.new with f := 0x03 } }

/-- Memory with the 16-bit word 0xAB00 at 0x1000, for POP PSW. -/
def popPswMemory : Memory8080 :=
  ⟨fun i => if i = 0x1000 then 0x00 else if i = 0x1001 then 0xab else 0⟩

/-- State about to POP PSW: SP points at the word 0xAB00. -/
def popPswState : CPU :=
  { regs := Registers.new, memory := popPswMemory, pc := 0, sp := 0x1000,
    inter := false }

/-- State with chosen BC and SP, zero memory, used for the INX/DCX claims. -/
def pairState (bv cv spv : Nat) : CPU :=
  { regs := { Registers.new with b := bv, c := cv },
    memory := Memory8080.new_empty, pc := 0, sp := spv, inter := false }

/-- Memory image `IN 0x07` at address 0. -/
def inMemory : Memory8080 :=
  ⟨fun i => if i = 0 then 0xdb else if i = 1 then 0x07 else 0⟩

/-- State about to execute `IN 0x07` with `A = 0x55`. -/
def inState : CPU :=
  { regs := { Registers.new with a := 0x55 }, memory := inMemory, pc := 0,
    sp := 0, inter := false }

/-- One fetch-then-exec step of `inState`. -/
def inRun : Option (CPU × Event) := do
  let (c1, op) ← inState.fetch
  c1.exec op

/-- Memory image of the spec scenario: `CALL 0x02FF` at address 0. -/
def callMemory : Memory8080 :=
  ⟨fun i => if i = 0 then 0xcd else if i = 1 then 0xff else
    if i = 2 then 0x02 else 0⟩

/-- The spec's CALL scenario start state: PC = 0, SP = 0x0000. -/
def callState : CPU :=
  { regs := Registers.new, memory := callMemory, pc := 0, sp := 0,
    inter := false }

/-- One fetch-then-exec step of `callState`. -/
def callRun : Option (CPU × Event) := do
  let (c1, op) ← callState.fetch
  c1.exec op

/-- State for the interrupt-acceptance claim, with chosen SP and latch. -/
def intrState (spv : Nat) (en : Bool) : CPU :=
  { regs := Registers.new, memory := Memory8080.new_empty, pc := 0x1234,
    sp := spv, inter := en }

/-- A state with all register bytes in range, used as the witness input for
the universally quantified claims. -/
def byteState : CPU :=
  { regs := { b := 0x7f, c := 0x00, d := 0xff, e := 0x10, h := 0x01, l := 0x00,
              f := 0x93, a := 0x33 },
    memory := ⟨fun _ => 0x0f⟩, pc := 0, sp := 0, inter := false }

/-! Claim-level propositions (the bodies of the universally quantified
claims, factored out so the witnesses can instantiate them). -/

/-- What the INR-family claim asserts of one register-form opcode: exec
succeeds with 5 cycles, the register is bumped modulo 256, the carry flag is
preserved, and S/Z/A/P are derived from the result exactly as in `CPU.inr`. -/
def inrRegClaim (s : CPU) (op : Nat) (getr : CPU → Nat) : Prop :=
  ∃ s', CPU.exec s op = some (s', Event.Normal 5) ∧
    getr s' = wadd8 (getr s) 1 ∧
    s'.regs.get_flag .C = s.regs.get_flag .C ∧
    s'.regs.get_flag .S = ((wadd8 (getr s) 1 &&& 0x80) == 0x80) ∧
    s'.regs.get_flag .Z = (wadd8 (getr s) 1 == 0x00) ∧
    s'.regs.get_flag .A = decide ((getr s &&& 0x0f) + 1 > 0x0f) ∧
    s'.regs.get_flag .P = (countOnes (wadd8 (getr s) 1) &&& 0x01 == 0x00)

/-- The DCR-family analogue of `inrRegClaim`. -/
def dcrRegClaim (s : CPU) (op : Nat) (getr : CPU → Nat) : Prop :=
  ∃ s', CPU.exec s op = some (s', Event.Normal 5) ∧
    getr s' = wsub8 (getr s) 1 ∧
    s'.regs.get_flag .C = s.regs.get_flag .C ∧
    s'.regs.get_flag .S = ((wsub8 (getr s) 1 &&& 0x80) == 0x80) ∧
    s'.regs.get_flag .Z = (wsub8 (getr s) 1 == 0x00) ∧
    s'.regs.get_flag .A = ((wsub8 (getr s) 1 &&& 0x0f) != 0x0f) ∧
    s'.regs.get_flag .P = (countOnes (wsub8 (getr s) 1) &&& 0x01 == 0x00)

/-- The INR M (opcode 0x34) case: the byte at HL is bumped, C preserved,
S/Z/A/P derived from the result. -/
def inrMClaim (s : CPU) : Prop :=
  ∃ s', CPU.exec s 0x34 = some (s', Event.Normal 10) ∧
    s'.memory.read s.regs.get_hl
      = some (wadd8 (s.memory.memory s.regs.get_hl) 1) ∧
    s'.regs.get_flag .C = s.regs.get_flag .C ∧
    s'.regs.get_flag .S = ((wadd8 (s.memory.memory s.regs.get_hl) 1 &&& 0x80) == 0x80) ∧
    s'.regs.get_flag .Z = (wadd8 (s.memory.memory s.regs.get_hl) 1 == 0x00) ∧
    s'.regs.get_flag .A = decide ((s.memory.memory s.regs.get_hl &&& 0x0f) + 1 > 0x0f) ∧
    s'.regs.get_flag .P = (countOnes (wadd8 (s.memory.memory s.regs.get_hl) 1) &&& 0x01 == 0x00)

/-- The DCR M (opcode 0x35) case. -/
def dcrMClaim (s : CPU) : Prop :=
  ∃ s', CPU.exec s 0x35 = some (s', Event.Normal 10) ∧
    s'.memory.read s.regs.get_hl
      = some (wsub8 (s.memory.memory s.regs.get_hl) 1) ∧
    s'.regs.get_flag .C = s.regs.get_flag .C ∧
    s'.regs.get_flag .S = ((wsub8 (s.memory.memory s.regs.get_hl) 1 &&& 0x80) == 0x80) ∧
    s'.regs.get_flag .Z = (wsub8 (s.memory.memory s.regs.get_hl) 1 == 0x00) ∧
    s'.regs.get_flag .A = ((wsub8 (s.memory.memory s.regs.get_hl) 1 &&& 0x0f) != 0x0f) ∧
    s'.regs.get_flag .P = (countOnes (wsub8 (s.memory.memory s.regs.get_hl) 1) &&& 0x01 == 0x00)

/-- All sixteen INR/DCR opcodes together (the body of claim C9). -/
def InrDcrCarryClaim (s : CPU) : Prop :=
  inrRegClaim s 0x04 (fun c => c.regs.b) ∧
  inrRegClaim s 0x0c (fun c => c.regs.c) ∧
  inrRegClaim s 0x14 (fun c => c.regs.d) ∧
  inrRegClaim s 0x1c (fun c => c.regs.e) ∧
  inrRegClaim s 0x24 (fun c => c.regs.h) ∧
  inrRegClaim s 0x2c (fun c => c.regs.l) ∧
  inrRegClaim s 0x3c (fun c => c.regs.a) ∧
  inrMClaim s ∧
  dcrRegClaim s 0x05 (fun c => c.regs.b) ∧
  dcrRegClaim s 0x0d (fun c => c.regs.c) ∧
  dcrRegClaim s 0x15 (fun c => c.regs.d) ∧
  dcrRegClaim s 0x1d (fun c => c.regs.e) ∧
  dcrRegClaim s 0x25 (fun c => c.regs.h) ∧
  dcrRegClaim s 0x2d (fun c => c.regs.l) ∧
  dcrRegClaim s 0x3d (fun c => c.regs.a) ∧
  dcrMClaim s

/-- The body of claim C10: every pair setter/getter round-trips exactly, the
high register receiving bits 15..8 and the low register bits 7..0. -/
def PairRoundTrip (rg : Registers) (v : Nat) : Prop :=
  ((rg.set_af v).get_af = v ∧ (rg.set_af v).a = v >>> 8 ∧ (rg.set_af v).f = v &&& 0xff) ∧
  ((rg.set_bc v).get_bc = v ∧ (rg.set_bc v).b = v >>> 8 ∧ (rg.set_bc v).c = v &&& 0xff) ∧
  ((rg.set_de v).get_de = v ∧ (rg.set_de v).d = v >>> 8 ∧ (rg.set_de v).e = v &&& 0xff) ∧
  ((rg.set_hl v).get_hl = v ∧ (rg.set_hl v).h = v >>> 8 ∧ (rg.set_hl v).l = v &&& 0xff)


/-! Supporting lemmas about flag bits and 16-bit pair arithmetic. -/

lemma flagBit_lt (fl : Flag) : fl.bit < 8 := by cases fl <;> simp [Flag.bit]

lemma get_flag_eq_testBit (r : Registers) (fl : Flag) :
    r.get_flag fl = r.f.testBit fl.bit := by
  unfold Registers.get_flag
  rw [Nat.shiftRight_eq_div_pow, Nat.and_one_is_mod, Nat.testBit_to_div_mod]
  rcases Nat.mod_two_eq_zero_or_one (r.f / 2 ^ fl.bit) with h | h <;> simp [h]

lemma testBit_255 (i : Nat) : Nat.testBit 255 i = decide (i < 8) := by
  have h : (255 : Nat) = 2 ^ 8 - 1 := by norm_num
  rw [h, Nat.testBit_two_pow_sub_one]

lemma f_set_flag_testBit (r : Registers) (fl : Flag) (c : Bool) (i : Nat) (hi : i < 8) :
    (r.set_flag fl c).f.testBit i = if i = fl.bit then c else r.f.testBit i := by
  have hfl : fl.bit < 8 := flagBit_lt fl
  unfold Registers.set_flag
  by_cases hik : i = fl.bit
  · subst hik
    cases c <;>
      simp [Nat.testBit_and, Nat.testBit_or, Nat.testBit_xor, Nat.one_shiftLeft,
        Nat.testBit_two_pow, testBit_255, hfl]
  · have hki : fl.bit ≠ i := fun h => hik h.symm
    cases c <;>
      simp [Nat.testBit_and, Nat.testBit_or, Nat.testBit_xor, Nat.one_shiftLeft,
        Nat.testBit_two_pow, testBit_255, hki, hik, hi]

lemma get_flag_set_flag (r : Registers) (fl fl' : Flag) (c : Bool) :
    (r.set_flag fl c).get_flag fl' = if fl'.bit = fl.bit then c else r.get_flag fl' := by
  rw [get_flag_eq_testBit, get_flag_eq_testBit]
  exact f_set_flag_testBit r fl c fl'.bit (flagBit_lt fl')

lemma set_flag_h (r : Registers) (fl : Flag) (c : Bool) : (r.set_flag fl c).h = r.h := by
  unfold Registers.set_flag; cases c <;> simp

lemma set_flag_l (r : Registers) (fl : Flag) (c : Bool) : (r.set_flag fl c).l = r.l := by
  unfold Registers.set_flag; cases c <;> simp

lemma get_hl_set_flag (r : Registers) (fl : Flag) (c : Bool) :
    (r.set_flag fl c).get_hl = r.get_hl := by
  unfold Registers.get_hl
  rw [set_flag_h, set_flag_l]

lemma get_flag_mk_b (rg : Registers) (v : Nat) (fl : Flag) :
    Registers.get_flag { rg with b := v } fl = rg.get_flag fl := rfl

lemma get_flag_mk_c (rg : Registers) (v : Nat) (fl : Flag) :
    Registers.get_flag { rg with c := v } fl = rg.get_flag fl := rfl

lemma get_flag_mk_d (rg : Registers) (v : Nat) (fl : Flag) :
    Registers.get_flag { rg with d := v } fl = rg.get_flag fl := rfl

lemma get_flag_mk_e (rg : Registers) (v : Nat) (fl : Flag) :
    Registers.get_flag { rg with e := v } fl = rg.get_flag fl := rfl

lemma get_flag_mk_h (rg : Registers) (v : Nat) (fl : Flag) :
    Registers.get_flag { rg with h := v } fl = rg.get_flag fl := rfl

lemma get_flag_mk_l (rg : Registers) (v : Nat) (fl : Flag) :
    Registers.get_flag { rg with l := v } fl = rg.get_flag fl := rfl

lemma get_flag_mk_a (rg : Registers) (v : Nat) (fl : Flag) :
    Registers.get_flag { rg with a := v } fl = rg.get_flag fl := rfl

lemma lor_mul256_add (a b : Nat) (hb : b < 256) : (a * 256) ||| b = a * 256 + b := by
  apply Nat.eq_of_testBit_eq
  intro i
  have h1 : a * 256 = 2 ^ 8 * a + 0 := by ring
  have h2 : a * 256 + b = 2 ^ 8 * a + b := by ring
  rw [Nat.testBit_or, h2, Nat.testBit_mul_pow_two_add a (show b < 2 ^ 8 by omega) i]
  conv_lhs => rw [h1, Nat.testBit_mul_pow_two_add a (show (0:Nat) < 2 ^ 8 by omega) i]
  by_cases hi : i < 8
  · simp [hi]
  · have hbi : b < 2 ^ i :=
      lt_of_lt_of_le (show b < 2 ^ 8 by omega) (Nat.pow_le_pow_right (by omega) (by omega))
    simp [hi, Nat.testBit_lt_two_pow hbi]

lemma get_hl_eq (rg : Registers) (hl : rg.l < 256) :
    rg.get_hl = rg.h * 256 + rg.l := by
  unfold Registers.get_hl
  rw [Nat.shiftLeft_eq, (by norm_num : (2:Nat) ^ 8 = 256), lor_mul256_add _ _ hl]

lemma get_hl_lt (rg : Registers) (hh : rg.h < 256) (hl : rg.l < 256) :
    rg.get_hl < 65536 := by
  rw [get_hl_eq rg hl]
  omega

lemma split_combine (v : Nat) (hv : v < 65536) :
    ((((v >>> 8) % 256) <<< 8) ||| ((v &&& 0x00ff) % 256)) = v := by
  have hsr : v >>> 8 = v / 256 := by
    rw [Nat.shiftRight_eq_div_pow]
  have hand : v &&& 0x00ff = v % 256 := by
    have h : (0x00ff : Nat) = 2 ^ 8 - 1 := by norm_num
    rw [h, Nat.and_pow_two_sub_one_eq_mod]
  have e1 : v / 256 % 256 = v / 256 := by omega
  have e2 : v % 256 % 256 = v % 256 := by omega
  rw [hsr, hand, e1, e2, Nat.shiftLeft_eq, (by norm_num : (2:Nat) ^ 8 = 256),
    lor_mul256_add _ _ (by omega)]
  omega

lemma shiftRight8_mod (v : Nat) (hv : v < 65536) : (v >>> 8) % 256 = v >>> 8 := by
  rw [Nat.shiftRight_eq_div_pow, (by norm_num : (2:Nat) ^ 8 = 256)]
  omega

lemma and_255_mod (v : Nat) : (v &&& 0x00ff) % 256 = v &&& 0x00ff := by
  have h : (0x00ff : Nat) = 2 ^ 8 - 1 := by norm_num
  rw [h, Nat.and_pow_two_sub_one_eq_mod]
  omega

/-! The claim theorems. -/

/-- C1: counter-evidence. The spec says RST pushes the current PC
(SP decremented by 2, PC stored at the new SP) and then jumps to n * 8.
The code instead writes the PC at SP + 2 and never changes SP: from
PC = 0x1234, SP = 0x2000, executing RST 0 leaves SP at 0x2000, stores
0x1234 at 0x2002, leaves 0x1FFE untouched, and sets PC to 0 (RST 7 sets
PC to 0x38). -/
theorem rst_stores_return_address_above_sp :
    ((CPU.exec rstState 0xc7).map fun p => (p.1.pc, p.1.sp, p.2))
      = some (0x0000, 0x2000, Event.Normal 11) ∧
    ((CPU.exec rstState 0xc7).bind fun p => p.1.memory.read16 0x2002)
      = some 0x1234 ∧
    ((CPU.exec rstState 0xc7).bind fun p => p.1.memory.read16 0x1ffe)
      = some 0x0000 ∧
    ((CPU.exec rstState 0xff).map fun p => (p.1.pc, p.1.sp))
      = some (0x0038, 0x2000) := by decide

/-- C2: counter-evidence. The spec says `read16`/`write16` wrap `i + 1`
modulo 65536 and can never index out of range; in the code both panic at
`i = 0xFFFF` (modelled as `none`), while 0xFFFE still works. -/
theorem mem16_accessors_panic_at_top_address :
    Memory8080.new_empty.read16 0xffff = none ∧
    (Memory8080.new_empty.write16 0xffff 0x1234).isNone = true ∧
    Memory8080.new_empty.read16 0xfffe = some 0x0000 := by decide

/-- C3: counter-evidence. The claim says the SUB family sets the
auxiliary-carry flag exactly when `(x & 0xF) - (y & 0xF) - cin < 0`.  On the
repository's own `test_cpi` input (A = 0x01, CPI 0x02, so the nibble
difference is -1 < 0) the code leaves the flag CLEAR and produces F = 0x87,
although that test asserts F = 0x97; likewise `sub 1 2` and a borrow-in
`sbb 0x10 0x00` with carry set leave the flag clear. -/
theorem sub_family_aux_carry_no_borrow :
    (cpiRun.map fun p => (p.1.regs.a, p.1.regs.f, p.1.regs.get_flag .A))
      = some (0x01, 0x87, false) ∧
    (CPU.new_empty.sub 0x01 0x02).1.regs.get_flag .A = false ∧
    (carrySetState.sbb 0x10 0x00).1.regs.get_flag .A = false := by decide

/-- C4: counter-evidence. POP PSW (0xF1) stores the raw popped low byte
into F: popping 0xAB00 gives A = 0xAB and F = 0x00, whose bit 1 is 0 — not
the canonical pattern (bit 1 = 1) the claim requires. -/
theorem pop_psw_stores_raw_flag_byte :
    ((CPU.exec popPswState 0xf1).map fun p => (p.1.regs.a, p.1.regs.f, p.1.sp, p.2))
      = some (0xab, 0x00, 0x1002, Event.Normal 10) ∧
    ((CPU.exec popPswState 0xf1).map fun p => (p.1.regs.f).testBit 1)
      = some false := by decide

/-- C5: counter-evidence. INX/DCX use non-wrapping 16-bit arithmetic: INX B
from BC = 0xFFFF, DCX B from BC = 0x0000, INX SP from SP = 0xFFFF and DCX SP
from SP = 0x0000 all panic (modelled as `none`) instead of wrapping; away
from the edge they do increment/decrement and leave F untouched. -/
theorem inx_dcx_nonwrapping_overflow :
    (CPU.exec (pairState 0xff 0xff 0x2000) 0x03).isNone = true ∧
    (CPU.exec (pairState 0x00 0x00 0x2000) 0x0b).isNone = true ∧
    (CPU.exec (pairState 0x00 0x00 0xffff) 0x33).isNone = true ∧
    (CPU.exec (pairState 0x00 0x00 0x0000) 0x3b).isNone = true ∧
    ((CPU.exec (pairState 0x12 0x34 0x2000) 0x03).map fun p =>
        (p.1.regs.b, p.1.regs.c, p.1.regs.f, p.2))
      = some (0x12, 0x35, 0x02, Event.Normal 5) ∧
    ((CPU.exec (pairState 0x12 0x34 0x2000) 0x0b).map fun p =>
        (p.1.regs.b, p.1.regs.c, p.1.regs.f, p.2))
      = some (0x12, 0x33, 0x02, Event.Normal 5) := by decide

/-- C6: counter-evidence. Executing `IN 0x07` from A = 0x55 advances PC past
the operand and returns Normal 10, but never consults a device and leaves A
at 0x55 — the claimed `A := port_in(port)` does not happen. -/
theorem in_opcode_leaves_accumulator :
    (inRun.map fun p => (p.1.regs.a, p.1.pc, p.2))
      = some (0x55, 0x0002, Event.Normal 10) := by decide

/-- C7: the spec's CALL scenario.  With memory [0]=0xCD, [1]=0xFF, [2]=0x02,
PC = 0 and SP = 0x0000, fetch followed by exec gives PC = 0x02FF,
SP = 0xFFFE (wrapped), and the return address 0x0003 on the stack. -/
theorem call_scenario_wraps_stack :
    (callRun.map fun p => (p.1.pc, p.1.sp, p.2))
      = some (0x02ff, 0xfffe, Event.Normal 17) ∧
    (callRun.bind fun p => p.1.memory.read16 0xfffe) = some 0x0003 := by decide

/-- C8: counter-evidence plus the surviving cases.  With the latch set and
SP = 0x0001 the accept path panics (the 16-bit stack write indexes
memory[0x10000]); with SP = 0x2000 it clears the latch, pushes PC, jumps to
the vector and returns Normal 17; with the latch clear it is a no-op
returning Rust `None`. -/
theorem interrupt_accept_panics_at_sp_one :
    ((intrState 0x0001 true).inter_handle 0x0010).isNone = true ∧
    (((intrState 0x2000 true).inter_handle 0x0010).map fun p =>
        (p.1.pc, p.1.sp, p.1.inter, p.2))
      = some (0x0010, 0x1ffe, false, some (Event.Normal 17)) ∧
    (((intrState 0x2000 true).inter_handle 0x0010).bind fun p =>
        p.1.memory.read16 0x1ffe) = some 0x1234 ∧
    (((intrState 0x2000 false).inter_handle 0x0010).map fun p =>
        (p.1.pc, p.1.sp, p.1.inter, p.2))
      = some (0x1234, 0x2000, false, none) ∧
    (((intrState 0x2000 false).inter_handle 0x0010).map fun p =>
        (p.1.regs.f, p.1.regs.a, p.1.regs.b))
      = some (0x02, 0x00, 0x00) := by decide

set_option maxHeartbeats 4000000 in
/-- C9: every INR and DCR opcode (register and M forms) succeeds, stores the
incremented/decremented value, preserves the carry flag, and derives
S, Z, A, P from the result. -/
theorem inr_dcr_preserve_carry (s : CPU) (hh : s.regs.h < 256) (hl : s.regs.l < 256) :
    InrDcrCarryClaim s := by
  unfold InrDcrCarryClaim
  refine ⟨?_, ?_, ?_, ?_, ?_, ?_, ?_, ?_, ?_, ?_, ?_, ?_, ?_, ?_, ?_, ?_⟩
  · have harm : CPU.exec s 0x04
        = some ({ (s.inr s.regs.b).1 with
            regs := { (s.inr s.regs.b).1.regs with b := (s.inr s.regs.b).2 } },
          Event.Normal 5) := rfl
    unfold inrRegClaim
    rw [harm]
    simp [CPU.inr, get_flag_mk_b, get_flag_mk_c, get_flag_mk_d, get_flag_mk_e,
      get_flag_mk_h, get_flag_mk_l, get_flag_mk_a, get_flag_set_flag, Flag.bit]
  · have harm : CPU.exec s 0x0c
        = some ({ (s.inr s.regs.c).1 with
            regs := { (s.inr s.regs.c).1.regs with c := (s.inr s.regs.c).2 } },
          Event.Normal 5) := rfl
    unfold inrRegClaim
    rw [harm]
    simp [CPU.inr, get_flag_mk_b, get_flag_mk_c, get_flag_mk_d, get_flag_mk_e,
      get_flag_mk_h, get_flag_mk_l, get_flag_mk_a, get_flag_set_flag, Flag.bit]
  · have harm : CPU.exec s 0x14
        = some ({ (s.inr s.regs.d).1 with
            regs := { (s.inr s.regs.d).1.regs with d := (s.inr s.regs.d).2 } },
          Event.Normal 5) := rfl
    unfold inrRegClaim
    rw [harm]
    simp [CPU.inr, get_flag_mk_b, get_flag_mk_c, get_flag_mk_d, get_flag_mk_e,
      get_flag_mk_h, get_flag_mk_l, get_flag_mk_a, get_flag_set_flag, Flag.bit]
  · have harm : CPU.exec s 0x1c
        = some ({ (s.inr s.regs.e).1 with
            regs := { (s.inr s.regs.e).1.regs with e := (s.inr s.regs.e).2 } },
          Event.Normal 5) := rfl
    unfold inrRegClaim
    rw [harm]
    simp [CPU.inr, get_flag_mk_b, get_flag_mk_c, get_flag_mk_d, get_flag_mk_e,
      get_flag_mk_h, get_flag_mk_l, get_flag_mk_a, get_flag_set_flag, Flag.bit]
  · have harm : CPU.exec s 0x24
        = some ({ (s.inr s.regs.h).1 with
            regs := { (s.inr s.regs.h).1.regs with h := (s.inr s.regs.h).2 } },
          Event.Normal 5) := rfl
    unfold inrRegClaim
    rw [harm]
    simp [CPU.inr, get_flag_mk_b, get_flag_mk_c, get_flag_mk_d, get_flag_mk_e,
      get_flag_mk_h, get_flag_mk_l, get_flag_mk_a, get_flag_set_flag, Flag.bit]
  · have harm : CPU.exec s 0x2c
        = some ({ (s.inr s.regs.l).1 with
            regs := { (s.inr s.regs.l).1.regs with l := (s.inr s.regs.l).2 } },
          Event.Normal 5) := rfl
    unfold inrRegClaim
    rw [harm]
    simp [CPU.inr, get_flag_mk_b, get_flag_mk_c, get_flag_mk_d, get_flag_mk_e,
      get_flag_mk_h, get_flag_mk_l, get_flag_mk_a, get_flag_set_flag, Flag.bit]
  · have harm : CPU.exec s 0x3c
        = some ({ (s.inr s.regs.a).1 with
            regs := { (s.inr s.regs.a).1.regs with a := (s.inr s.regs.a).2 } },
          Event.Normal 5) := rfl
    unfold inrRegClaim
    rw [harm]
    simp [CPU.inr, get_flag_mk_b, get_flag_mk_c, get_flag_mk_d, get_flag_mk_e,
      get_flag_mk_h, get_flag_mk_l, get_flag_mk_a, get_flag_set_flag, Flag.bit]
  · have hlt := get_hl_lt s.regs hh hl
    have hm : s.get_m = some (s.memory.memory s.regs.get_hl) := by
      unfold CPU.get_m Memory8080.read
      rw [if_pos hlt]
    have harm : CPU.exec s 0x34
        = (s.get_m.bind fun m =>
            (((s.inr m).1).set_m ((s.inr m).2)).bind fun c2 =>
              some (c2, Event.Normal 10)) := rfl
    unfold inrMClaim
    rw [harm, hm]
    simp [CPU.inr, CPU.set_m, Memory8080.write, Memory8080.read, get_hl_set_flag, hlt,
      get_flag_mk_b, get_flag_mk_c, get_flag_mk_d, get_flag_mk_e,
      get_flag_mk_h, get_flag_mk_l, get_flag_mk_a, get_flag_set_flag, Flag.bit]
  · have harm : CPU.exec s 0x05
        = some ({ (s.dcr s.regs.b).1 with
            regs := { (s.dcr s.regs.b).1.regs with b := (s.dcr s.regs.b).2 } },
          Event.Normal 5) := rfl
    unfold dcrRegClaim
    rw [harm]
    simp [CPU.dcr, get_flag_mk_b, get_flag_mk_c, get_flag_mk_d, get_flag_mk_e,
      get_flag_mk_h, get_flag_mk_l, get_flag_mk_a, get_flag_set_flag, Flag.bit]
  · have harm : CPU.exec s 0x0d
        = some ({ (s.dcr s.regs.c).1 with
            regs := { (s.dcr s.regs.c).1.regs with c := (s.dcr s.regs.c).2 } },
          Event.Normal 5) := rfl
    unfold dcrRegClaim
    rw [harm]
    simp [CPU.dcr, get_flag_mk_b, get_flag_mk_c, get_flag_mk_d, get_flag_mk_e,
      get_flag_mk_h, get_flag_mk_l, get_flag_mk_a, get_flag_set_flag, Flag.bit]
  · have harm : CPU.exec s 0x15
        = some ({ (s.dcr s.regs.d).1 with
            regs := { (s.dcr s.regs.d).1.regs with d := (s.dcr s.regs.d).2 } },
          Event.Normal 5) := rfl
    unfold dcrRegClaim
    rw [harm]
    simp [CPU.dcr, get_flag_mk_b, get_flag_mk_c, get_flag_mk_d, get_flag_mk_e,
      get_flag_mk_h, get_flag_mk_l, get_flag_mk_a, get_flag_set_flag, Flag.bit]
  · have harm : CPU.exec s 0x1d
        = some ({ (s.dcr s.regs.e).1 with
            regs := { (s.dcr s.regs.e).1.regs with e := (s.dcr s.regs.e).2 } },
          Event.Normal 5) := rfl
    unfold dcrRegClaim
    rw [harm]
    simp [CPU.dcr, get_flag_mk_b, get_flag_mk_c, get_flag_mk_d, get_flag_mk_e,
      get_flag_mk_h, get_flag_mk_l, get_flag_mk_a, get_flag_set_flag, Flag.bit]
  · have harm : CPU.exec s 0x25
        = some ({ (s.dcr s.regs.h).1 with
            regs := { (s.dcr s.regs.h).1.regs with h := (s.dcr s.regs.h).2 } },
          Event.Normal 5) := rfl
    unfold dcrRegClaim
    rw [harm]
    simp [CPU.dcr, get_flag_mk_b, get_flag_mk_c, get_flag_mk_d, get_flag_mk_e,
      get_flag_mk_h, get_flag_mk_l, get_flag_mk_a, get_flag_set_flag, Flag.bit]
  · have harm : CPU.exec s 0x2d
        = some ({ (s.dcr s.regs.l).1 with
            regs := { (s.dcr s.regs.l).1.regs with l := (s.dcr s.regs.l).2 } },
          Event.Normal 5) := rfl
    unfold dcrRegClaim
    rw [harm]
    simp [CPU.dcr, get_flag_mk_b, get_flag_mk_c, get_flag_mk_d, get_flag_mk_e,
      get_flag_mk_h, get_flag_mk_l, get_flag_mk_a, get_flag_set_flag, Flag.bit]
  · have harm : CPU.exec s 0x3d
        = some ({ (s.dcr s.regs.a).1 with
            regs := { (s.dcr s.regs.a).1.regs with a := (s.dcr s.regs.a).2 } },
          Event.Normal 5) := rfl
    unfold dcrRegClaim
    rw [harm]
    simp [CPU.dcr, get_flag_mk_b, get_flag_mk_c, get_flag_mk_d, get_flag_mk_e,
      get_flag_mk_h, get_flag_mk_l, get_flag_mk_a, get_flag_set_flag, Flag.bit]
  · have hlt := get_hl_lt s.regs hh hl
    have hm : s.get_m = some (s.memory.memory s.regs.get_hl) := by
      unfold CPU.get_m Memory8080.read
      rw [if_pos hlt]
    have harm : CPU.exec s 0x35
        = (s.get_m.bind fun m =>
            (((s.dcr m).1).set_m ((s.dcr m).2)).bind fun c2 =>
              some (c2, Event.Normal 10)) := rfl
    unfold dcrMClaim
    rw [harm, hm]
    simp [CPU.dcr, CPU.set_m, Memory8080.write, Memory8080.read, get_hl_set_flag, hlt,
      get_flag_mk_b, get_flag_mk_c, get_flag_mk_d, get_flag_mk_e,
      get_flag_mk_h, get_flag_mk_l, get_flag_mk_a, get_flag_set_flag, Flag.bit]
/-- Witness for C9 at a concrete byte-valued state. -/
theorem inr_dcr_preserve_carry_witness : InrDcrCarryClaim byteState :=
  inr_dcr_preserve_carry byteState (by decide) (by decide)

/-- C10: for every 16-bit value, each pair setter followed by its getter
returns the value exactly, the high register holding bits 15..8 and the low
register bits 7..0 (AF included — `set_af` does not mask F). -/
theorem pair_set_get_roundtrip (rg : Registers) (v : Nat) (hv : v < 65536) :
    PairRoundTrip rg v := by
  unfold PairRoundTrip Registers.set_af Registers.get_af Registers.set_bc
    Registers.get_bc Registers.set_de Registers.get_de Registers.set_hl
    Registers.get_hl
  refine ⟨⟨?_, ?_, ?_⟩, ⟨?_, ?_, ?_⟩, ⟨?_, ?_, ?_⟩, ⟨?_, ?_, ?_⟩⟩ <;>
    first
      | exact split_combine v hv
      | exact shiftRight8_mod v hv
      | exact and_255_mod v

/-- Witness for C10 at a concrete register file and value. -/
theorem pair_set_get_roundtrip_witness : PairRoundTrip Registers.new 0xabcd :=
  pair_set_get_roundtrip Registers.new 0xabcd (by decide)

end I8080
